import Mathlib

/-!
Verification development for `setlist_to_navidrome.py`.

The script bridges two HTTP services: it fetches a concert setlist from
setlist.fm, flattens its song titles, searches each title against a
Navidrome (Subsonic) catalog, keeps the first candidate id per title, and
creates a playlist from the surviving ids.

This file gives a shallow embedding of the script, function by function:
pure helpers become Lean functions; the PRNG behind `random.choices` is
modelled as an abstract stream of naturals with an explicit cursor;
network effects become explicit response values supplied by an
environment (`World`); exceptions become `Except`; printed lines become a
structured log.  Machine integers are `Nat` with explicit `% 2 ^ w`.
-/

/-! ## Python truthiness for optional strings

Python treats `None` and the empty string as falsy; `os.getenv`,
`dict.get` and `argparse` all yield optional strings that the script
tests with bare `if x:` / `x or y`. -/

/-- Truthiness of an optional string, as Python `bool(x)` for `x` an
optional string: `None` and `""` are falsy. -/
def truthy : Option String → Bool
  | none => false
  | some s => !(s == "")

/-- Python `a or b` on optional strings: return `a` when truthy, else `b`. -/
def pyOr (a b : Option String) : Option String :=
  if truthy a then a else b

/-! ## MD5 (`hashlib.md5(...).hexdigest()`)

`md5hex` in the script is `hashlib.md5(s.encode('utf-8')).hexdigest()`.
We embed the full MD5 algorithm (RFC 1321) over `Nat` with explicit
`% 2 ^ 32`, plus UTF-8 encoding of the input string and lowercase hex
output. -/

/-- UTF-8 encoding of one Unicode code point, as a list of byte values. -/
def utf8EncodeCodepoint (n : Nat) : List Nat :=
  if n < 128 then [n]
  else if n < 2048 then [192 + n / 64, 128 + n % 64]
  else if n < 65536 then [224 + n / 4096, 128 + n / 64 % 64, 128 + n % 64]
  else [240 + n / 262144, 128 + n / 4096 % 64, 128 + n / 64 % 64, 128 + n % 64]

/-- Python `s.encode('utf-8')`: the UTF-8 bytes of a string. -/
def utf8Bytes (s : String) : List Nat :=
  s.data.flatMap (fun c => utf8EncodeCodepoint c.toNat)

/-- The 64 MD5 sine-derived round constants. -/
def md5K : Array Nat := #[
  0xd76aa478, 0xe8c7b756, 0x242070db, 0xc1bdceee,
  0xf57c0faf, 0x4787c62a, 0xa8304613, 0xfd469501,
  0x698098d8, 0x8b44f7af, 0xffff5bb1, 0x895cd7be,
  0x6b901122, 0xfd987193, 0xa679438e, 0x49b40821,
  0xf61e2562, 0xc040b340, 0x265e5a51, 0xe9b6c7aa,
  0xd62f105d, 0x02441453, 0xd8a1e681, 0xe7d3fbc8,
  0x21e1cde6, 0xc33707d6, 0xf4d50d87, 0x455a14ed,
  0xa9e3e905, 0xfcefa3f8, 0x676f02d9, 0x8d2a4c8a,
  0xfffa3942, 0x8771f681, 0x6d9d6122, 0xfde5380c,
  0xa4beea44, 0x4bdecfa9, 0xf6bb4b60, 0xbebfbc70,
  0x289b7ec6, 0xeaa127fa, 0xd4ef3085, 0x04881d05,
  0xd9d4d039, 0xe6db99e5, 0x1fa27cf8, 0xc4ac5665,
  0xf4292244, 0x432aff97, 0xab9423a7, 0xfc93a039,
  0x655b59c3, 0x8f0ccc92, 0xffeff47d, 0x85845dd1,
  0x6fa87e4f, 0xfe2ce6e0, 0xa3014314, 0x4e0811a1,
  0xf7537e82, 0xbd3af235, 0x2ad7d2bb, 0xeb86d391]

/-- The 64 MD5 per-round left-rotation amounts. -/
def md5S : Array Nat := #[
  7, 12, 17, 22, 7, 12, 17, 22, 7, 12, 17, 22, 7, 12, 17, 22,
  5, 9, 14, 20, 5, 9, 14, 20, 5, 9, 14, 20, 5, 9, 14, 20,
  4, 11, 16, 23, 4, 11, 16, 23, 4, 11, 16, 23, 4, 11, 16, 23,
  6, 10, 15, 21, 6, 10, 15, 21, 6, 10, 15, 21, 6, 10, 15, 21]

/-- Left rotation of a 32-bit word (argument assumed `< 2 ^ 32`). -/
def rotl32 (x n : Nat) : Nat :=
  ((x <<< n) % 4294967296) ||| (x >>> (32 - n))

/-- MD5 running state: the four 32-bit words. -/
structure Md5State where
  a : Nat
  b : Nat
  c : Nat
  d : Nat
deriving DecidableEq

/-- The MD5 nonlinear function and message-word index for round `i`. -/
def md5FG (i b c d : Nat) : Nat × Nat :=
  if i < 16 then ((b &&& c) ||| ((b ^^^ 4294967295) &&& d), i)
  else if i < 32 then ((d &&& b) ||| ((d ^^^ 4294967295) &&& c), (5 * i + 1) % 16)
  else if i < 48 then (b ^^^ c ^^^ d, (3 * i + 5) % 16)
  else (c ^^^ (b ||| (d ^^^ 4294967295)), (7 * i) % 16)

/-- One MD5 round, updating the four-word state with message word lookup `M`. -/
def md5Round (M : Nat → Nat) (st : Md5State) (i : Nat) : Md5State :=
  let fg := md5FG i st.b st.c st.d
  let f2 := (fg.1 + st.a + md5K.getD i 0 + M fg.2) % 4294967296
  ⟨st.d, (st.b + rotl32 f2 (md5S.getD i 0)) % 4294967296, st.b, st.c⟩

/-- Process one 64-byte chunk. -/
def md5Chunk (st : Md5State) (chunk : List Nat) : Md5State :=
  let M := fun g => chunk.getD (4 * g) 0 + 256 * chunk.getD (4 * g + 1) 0 +
    65536 * chunk.getD (4 * g + 2) 0 + 16777216 * chunk.getD (4 * g + 3) 0
  let r := (List.range 64).foldl (md5Round M) st
  ⟨(st.a + r.a) % 4294967296, (st.b + r.b) % 4294967296,
   (st.c + r.c) % 4294967296, (st.d + r.d) % 4294967296⟩

/-- Process a padded byte sequence 64 bytes at a time. -/
def md5Chunks (st : Md5State) : List Nat → Md5State
  | [] => st
  | b :: rest => md5Chunks (md5Chunk st ((b :: rest).take 64)) ((b :: rest).drop 64)
termination_by bs => bs.length
decreasing_by simp [List.length_drop]; omega

/-- Little-endian byte decomposition: `k` bytes of `v`. -/
def toLeBytes (v k : Nat) : List Nat :=
  (List.range k).map (fun j => (v >>> (8 * j)) % 256)

/-- MD5 padding: `0x80`, zeros to 56 mod 64, then the 64-bit little-endian
bit length. -/
def md5Pad (msg : List Nat) : List Nat :=
  msg ++ [128] ++ List.replicate ((119 - msg.length % 64) % 64) 0 ++
    toLeBytes ((8 * msg.length) % 18446744073709551616) 8

/-- The 16-byte MD5 digest of a byte sequence. -/
def md5Digest (msg : List Nat) : List Nat :=
  let st := md5Chunks ⟨0x67452301, 0xefcdab89, 0x98badcfe, 0x10325476⟩ (md5Pad msg)
  toLeBytes st.a 4 ++ toLeBytes st.b 4 ++ toLeBytes st.c 4 ++ toLeBytes st.d 4

/-- Lowercase hex digit for a value below 16. -/
def hexChar (n : Nat) : Char :=
  if n < 10 then Char.ofNat (48 + n) else Char.ofNat (87 + n)

/-- Two lowercase hex digits of one byte. -/
def byteHex (b : Nat) : List Char :=
  [hexChar (b / 16), hexChar (b % 16)]

/-- Embedding of `md5hex`: `hashlib.md5(s.encode('utf-8')).hexdigest()`. -/
def md5hex (s : String) : String :=
  String.mk ((md5Digest (utf8Bytes s)).flatMap byteHex)

/-! ## Request signing (`random_salt`, `subsonic_params`)

`random_salt` draws 8 symbols from `string.ascii_lowercase + string.digits`
via `random.choices`.  The PRNG is modelled as an abstract stream
`g : Nat → Nat` of draws together with a cursor: each call consumes the
next `n` stream positions, reducing each draw modulo the alphabet size.
`subsonic_params` reads the module-level `CLIENT_ID`, passed here as an
argument. -/

/-- The salt alphabet: `string.ascii_lowercase + string.digits`. -/
def saltAlphabet : List Char :=
  "abcdefghijklmnopqrstuvwxyz0123456789".data

/-- Embedding of `random_salt(n)`: join `n` draws from the alphabet.
Returns the salt together with the advanced PRNG cursor. -/
def random_salt (g : Nat → Nat) (cur : Nat) (n : Nat) : String × Nat :=
  (String.mk ((List.range n).map
    (fun j => saltAlphabet.getD (g (cur + j) % saltAlphabet.length) 'a')), cur + n)

/-- The Subsonic authentication parameter dict built by `subsonic_params`:
fields `u`, `t`, `s`, `v`, `c`. -/
structure SubsonicParams where
  u : String
  t : String
  s : String
  v : String
  c : String
deriving DecidableEq

/-- Embedding of `subsonic_params(username, password)`: generate a fresh
8-character salt, derive the token `md5hex(password + salt)`, and return
the parameter set (plus the advanced PRNG cursor).  `clientId` is the
module-level `CLIENT_ID`. -/
def subsonic_params (clientId username password : String) (g : Nat → Nat)
    (cur : Nat) : SubsonicParams × Nat :=
  let sc := random_salt g cur 8
  let t := md5hex (password ++ sc.1)
  (⟨username, t, sc.1, "1.16.1", clientId⟩, sc.2)

/-! ## Setlist parsing (`parse_songs_from_setlist`)

The setlist.fm document shape the script reads:
`json_obj.get("sets", {}).get("set", []) or []` iterated, each entry's
`s.get("song", []) or []` iterated, each song's `song.get("name")`
appended when truthy.  `Option.none` models an absent key (for `"set"`
and `"song"` it also covers an explicit `null`, which the script's
`or []` maps to `[]`). -/

/-- One entry of a `"song"` array: its optional `"name"` field. -/
structure SongEntry where
  name : Option String
deriving DecidableEq

/-- One entry of the `"set"` array: its optional `"song"` array. -/
structure SetEntry where
  song : Option (List SongEntry)
deriving DecidableEq

/-- The `"sets"` object: its optional `"set"` array. -/
structure SetsObj where
  set : Option (List SetEntry)
deriving DecidableEq

/-- The parsed setlist document: its optional `"sets"` object and the
artist name the script reads as a search hint. -/
structure SetlistDoc where
  sets : Option SetsObj
  artistName : Option String
deriving DecidableEq

/-- The list of set entries the loop ranges over:
`json_obj.get("sets", {}).get("set", []) or []`. -/
def docSets (j : SetlistDoc) : List SetEntry :=
  match j.sets with
  | none => []
  | some so => so.set.getD []

/-- Embedding of `parse_songs_from_setlist`: nested loops appending each
truthy `"name"` field, document order. -/
def parse_songs_from_setlist (j : SetlistDoc) : List String :=
  (docSets j).foldl (fun songs s =>
    (s.song.getD []).foldl (fun songs song =>
      match song.name with
      | some title => if title == "" then songs else songs ++ [title]
      | none => songs) songs) []

/-- The name contributed by one song entry, following the spec wording:
the `"name"` value when present and non-empty, nothing otherwise. -/
def songName? (e : SongEntry) : Option String :=
  match e.name with
  | some t => if t == "" then none else some t
  | none => none

/-- Spec-side formulation of title extraction: exactly the present,
non-empty `"name"` values, sets in document order, songs in document
order. -/
def parse_songs_spec (j : SetlistDoc) : List String :=
  (docSets j).flatMap (fun s => (s.song.getD []).filterMap songName?)

/-! ## Search-response parsing (`extract_song_ids_from_search_xml`)

The XML document is modelled as parsed element trees (`ET.fromstring` is
the external parser).  `ElementTree` renders a namespaced tag as
`{uri}tag`; `findall('.//tag')` returns matching proper descendants in
document order. -/

/-- A parsed XML element: tag, attributes, children. -/
inductive XmlElem where
  | node (tag : String) (attrs : List (String × String)) (children : List XmlElem)

/-- The element tag. -/
def XmlElem.tag : XmlElem → String
  | .node t _ _ => t

/-- Attribute lookup, as `Element.get(key)`. -/
def XmlElem.get : XmlElem → String → Option String
  | .node _ attrs _, k => attrs.lookup k

mutual
/-- All proper descendants of an element, preorder (document order). -/
def XmlElem.descendants : XmlElem → List XmlElem
  | .node _ _ cs => descendantsList cs

/-- All elements of a forest together with their descendants, preorder. -/
def descendantsList : List XmlElem → List XmlElem
  | [] => []
  | c :: cs => c :: c.descendants ++ descendantsList cs
end

/-- Embedding of `root.findall('.//tag')`: matching proper descendants in
document order. -/
def findallDesc (root : XmlElem) (tag : String) : List XmlElem :=
  root.descendants.filter (fun e => e.tag == tag)

/-- The namespaced song tag `ElementTree` produces for the Subsonic
namespace. -/
def nsSongTag : String := "\x7bhttp://subsonic.org/restapi\x7dsong"

/-- The candidate elements the script scans: namespaced matches first,
then non-namespaced matches. -/
def songElems (root : XmlElem) : List XmlElem :=
  findallDesc root nsSongTag ++ findallDesc root "song"

/-- Embedding of `extract_song_ids_from_search_xml`: for each candidate
element, read `id`, read `title` falling back to `name` (Python `or`),
and append `(id, display name)` when `id` is truthy.  The `title`
argument of the Python function is unused, kept for fidelity. -/
def extract_song_ids_from_search_xml (root : XmlElem) (title : String) :
    List (String × Option String) :=
  let _ := title
  (songElems root).foldl (fun ids song =>
    match song.get "id" with
    | some sid =>
        if sid == "" then ids
        else ids ++ [(sid, pyOr (song.get "title") (song.get "name"))]
    | none => ids) []

/-- Candidate extraction following the claim wording: exactly the track
entries exposing an identifier attribute and a title/name attribute
become `(identifier, display name)` candidates. -/
def extract_claim_spec (root : XmlElem) : List (String × Option String) :=
  (songElems root).filterMap (fun song =>
    match song.get "id", (song.get "title" <|> song.get "name") with
    | some sid, some n => some (sid, some n)
    | _, _ => none)

/-- Candidate extraction following the amended claim: every entry with a
truthy identifier attribute becomes a candidate, its display name being
the `title` attribute when truthy, else the `name` attribute (possibly
absent); namespaced matches in document order, then plain matches. -/
def extract_amended_spec (root : XmlElem) : List (String × Option String) :=
  (songElems root).filterMap (fun song =>
    match song.get "id" with
    | some sid =>
        if sid == "" then none
        else some (sid, pyOr (song.get "title") (song.get "name"))
    | none => none)

/-! ## HTTP and exception model

Outbound calls are modelled by response values supplied by an
environment.  A call either raises before a response exists (connection
error, timeout: the `Except.error` of the supplied value) or yields a
response with a status, a body, and the parse of that body.
`raise_for_status` raises `HTTPError` on 4xx/5xx statuses; parsing a
response body may fail.  `PyExc.httpError` models `requests.HTTPError`
(the spec calls it `RemoteServiceError`), carrying status and body. -/

/-- A raised Python exception: an HTTP error carrying status and body, or
any other exception with a message. -/
inductive PyExc where
  | httpError (status : Nat) (body : String)
  | other (msg : String)
deriving DecidableEq

/-- An HTTP response: status code, body text, and the parse of the body
(`none` when the body does not parse). -/
structure HttpResponse (α : Type) where
  status : Nat
  body : String
  parsed : Option α

/-- Embedding of `Response.raise_for_status()`: raise `HTTPError` for
4xx/5xx statuses, else return the response. -/
def raise_for_status {α : Type} (r : HttpResponse α) :
    Except PyExc (HttpResponse α) :=
  if 400 ≤ r.status ∧ r.status < 600 then .error (.httpError r.status r.body)
  else .ok r

/-- Embedding of `fetch_setlist_by_id`: raise when the API key is falsy,
propagate a transport exception, raise on a non-success status, then
return `r.json()` (raising when the body is not valid JSON). -/
def fetch_setlist_by_id (apiKey : Option String)
    (resp : Except PyExc (HttpResponse SetlistDoc)) : Except PyExc SetlistDoc :=
  if !truthy apiKey then .error (.other "SETLISTFM_API_KEY saknas i miljön.")
  else
    match resp with
    | .error e => .error e
    | .ok r =>
      match raise_for_status r with
      | .error e => .error e
      | .ok r =>
        match r.parsed with
        | some js => .ok js
        | none => .error (.other "json decode error")

/-- One title's search step as run inside the loop body:
`search_song` (transport plus `raise_for_status`, returning the body)
followed by `extract_song_ids_from_search_xml` (whose `ET.fromstring`
raises when the body is not XML). -/
def searchAndExtract (resp : Except PyExc (HttpResponse XmlElem))
    (title : String) : Except PyExc (List (String × Option String)) :=
  match resp with
  | .error e => .error e
  | .ok r =>
    match raise_for_status r with
    | .error e => .error e
    | .ok r =>
      match r.parsed with
      | some root => .ok (extract_song_ids_from_search_xml root title)
      | none => .error (.other "xml parse error")

/-! ## Main flow -/

/-- One printed line of the script, as structured data. -/
inductive LogLine where
  | fetching (sid : String)
  | foundCount (n : Nat)
  | matchedLine (title : String) (name : Option String) (id : String)
  | noMatch (title : String)
  | searchFailed (title : String) (e : PyExc)
  | creating (playlistName : String) (count : Nat)
  | created (body : String)
  | errNavEnv
  | errApiKey
  | errNoSetlistId
  | errNoSongs
  | errNoMatches
deriving DecidableEq

/-- How the process ends: an explicit `sys.exit` / normal return with an
exit code, or an uncaught exception (CPython then exits with status 1
after a traceback). -/
inductive MainOutcome where
  | exit (code : Nat)
  | uncaught (e : PyExc)
deriving DecidableEq

/-- The process exit status an outcome produces: `sys.exit(c)` gives `c`,
an uncaught exception gives CPython's status 1. -/
def processExitCode : MainOutcome → Nat
  | .exit c => c
  | .uncaught _ => 1

/-- The result of a run: the outcome plus everything printed to stdout
and to stderr. -/
structure RunResult where
  outcome : MainOutcome
  out : List LogLine
  err : List LogLine
deriving DecidableEq

/-- The environment variables the script reads (`None` models an unset
variable). -/
structure Env where
  setlistfm_api_key : Option String
  nav_base_url : Option String
  nav_username : Option String
  nav_password : Option String
  client_id : Option String

/-- The parsed command line (`argparse` itself is out of scope; this is
the `args` object after parsing, `--max-songs` being an arbitrary
integer). -/
structure Args where
  setlist_id : Option String
  setlist_url : Option String
  playlist_name : String
  artist : Option String
  max_songs : Int

/-- The behaviour of the external services during one run: the setlist
fetch response, the search response for the i-th processed title, and
the playlist-creation response. -/
structure World where
  fetchResp : Except PyExc (HttpResponse SetlistDoc)
  searchResp : Nat → Except PyExc (HttpResponse XmlElem)
  createResp : Except PyExc (HttpResponse Unit)

/-- Python `url.rstrip("/")`. -/
def rstripSlashes (s : String) : String :=
  String.mk (s.data.reverse.dropWhile (fun c => c == '/')).reverse

/-- Python `url.rstrip("/").split("/")[-1]`: the last path segment. -/
def lastPathSegment (url : String) : String :=
  ((rstripSlashes url).splitOn "/").getLastD ""

/-- The setlist id after the fallback from `--setlist-url`:
`args.setlist_id`, or the url's last path segment when the id is falsy
and a url was given. -/
def resolveSetlistId (args : Args) : Option String :=
  if !truthy args.setlist_id && truthy args.setlist_url then
    some (lastPathSegment (args.setlist_url.getD ""))
  else args.setlist_id

/-- The check `if not NAV_BASE_URL or not NAV_USERNAME or not
NAV_PASSWORD`, as the conjunction of the three truthiness tests. -/
def navOk (env : Env) : Bool :=
  truthy env.nav_base_url && truthy env.nav_username && truthy env.nav_password

/-- Embedding of `songs[: args.max_songs]` (line 149): Python slice
semantics for an arbitrary integer bound, including the negative case
`stop = max(0, len + n)`. -/
def truncateSongs (songs : List String) (maxSongs : Int) : List String :=
  if 0 ≤ maxSongs then songs.take maxSongs.toNat
  else songs.take ((songs.length : Int) + maxSongs).toNat

/-- The matching loop (lines 152-166): for each title, run the search
step; on at least one candidate append the first candidate's id and log
the match, on zero candidates log the miss, on an exception log the
failure; always continue with the next title.  `i` indexes the processed
titles into the environment's search responses. -/
def matchLoop (search : Nat → Except PyExc (HttpResponse XmlElem)) :
    List String → Nat → List String → List LogLine → List String × List LogLine
  | [], _, matched, log => (matched, log)
  | title :: rest, i, matched, log =>
    match searchAndExtract (search i) title with
    | .ok ids =>
      match ids with
      | (sid, sname) :: _ =>
          matchLoop search rest (i + 1) (matched ++ [sid])
            (log ++ [.matchedLine title sname sid])
      | [] => matchLoop search rest (i + 1) matched (log ++ [.noMatch title])
    | .error e => matchLoop search rest (i + 1) matched (log ++ [.searchFailed title e])

/-- The candidate id one processed title contributes: the first
candidate's id when the search step succeeds with at least one
candidate, nothing otherwise. -/
def matchPick (search : Nat → Except PyExc (HttpResponse XmlElem))
    (p : Nat × String) : Option String :=
  match searchAndExtract (search p.1) p.2 with
  | .ok ((sid, _) :: _) => some sid
  | .ok [] => none
  | .error _ => none

/-- The line the loop logs for one processed title. -/
def matchLine (search : Nat → Except PyExc (HttpResponse XmlElem))
    (p : Nat × String) : LogLine :=
  match searchAndExtract (search p.1) p.2 with
  | .ok ((sid, sname) :: _) => .matchedLine p.2 sname sid
  | .ok [] => .noMatch p.2
  | .error e => .searchFailed p.2 e

/-- Spec-side formulation of the matched-id sequence: titles in order,
each title whose search yielded at least one candidate contributing its
first candidate's id, all other titles contributing nothing. -/
def firstWinsSpec (search : Nat → Except PyExc (HttpResponse XmlElem))
    (titles : List String) : List String :=
  titles.enum.filterMap (matchPick search)

/-- Embedding of `create_playlist`'s outcome: a transport exception or
`raise_for_status` on the POST response. -/
def create_playlist (resp : Except PyExc (HttpResponse Unit)) :
    Except PyExc (HttpResponse Unit) :=
  match resp with
  | .error e => .error e
  | .ok r => raise_for_status r

/-- The indexed query parameters `create_playlist` builds besides the
signing parameters: the playlist name, then one 0-based `songId[i]` entry
per matched id, order preserved. -/
def createPlaylistParams (playlistName : String) (songIds : List String) :
    List (String × String) :=
  [("name", playlistName)] ++
    songIds.enum.map (fun p => ("songId[" ++ toString p.1 ++ "]", p.2))

/-- Embedding of `main` (lines 116-175): environment checks, setlist-id
resolution, fetch, title extraction, truncation, the matching loop, and
playlist creation, with the printed lines as structured logs.  (Named
`mainRun` because Lean reserves `main` for executables.) -/
def mainRun (args : Args) (env : Env) (w : World) : RunResult :=
  if !navOk env then ⟨.exit 2, [], [.errNavEnv]⟩
  else if !truthy env.setlistfm_api_key then ⟨.exit 2, [], [.errApiKey]⟩
  else
    let sid := resolveSetlistId args
    if !truthy sid then ⟨.exit 2, [], [.errNoSetlistId]⟩
    else
      let out0 := [LogLine.fetching (sid.getD "")]
      match fetch_setlist_by_id env.setlistfm_api_key w.fetchResp with
      | .error e => ⟨.uncaught e, out0, []⟩
      | .ok js =>
        let songs0 := parse_songs_from_setlist js
        if songs0.isEmpty then ⟨.exit 1, out0, [.errNoSongs]⟩
        else
          let songs := truncateSongs songs0 args.max_songs
          let r := matchLoop w.searchResp songs 0 [] []
          let out2 := out0 ++ [.foundCount songs.length] ++ r.2
          if r.1.isEmpty then ⟨.exit 1, out2, [.errNoMatches]⟩
          else
            let out3 := out2 ++ [.creating args.playlist_name r.1.length]
            match create_playlist w.createResp with
            | .error e => ⟨.uncaught e, out3, []⟩
            | .ok cr => ⟨.exit 0, out3 ++ [.created cr.body], []⟩

/-- Whether a run printed the success message (`"Spellista skapad..."`,
modelled as a `created` line). -/
def successPrinted (res : RunResult) : Bool :=
  res.out.any (fun l =>
    match l with
    | .created _ => true
    | _ => false)

/-! ## Helper lemmas -/

/-- A fold whose step appends `f x` (when present) equals the
accumulator followed by `filterMap f`. -/
theorem foldl_opt_append {α β : Type} (f : α → Option β) (step : List β → α → List β)
    (hstep : ∀ acc x, step acc x =
      match f x with
      | some y => acc ++ [y]
      | none => acc) :
    ∀ (l : List α) (acc : List β), l.foldl step acc = acc ++ l.filterMap f := by
  intro l
  induction l with
  | nil => intro acc; simp
  | cons x xs ih =>
    intro acc
    rw [List.foldl_cons, hstep, List.filterMap_cons]
    rcases hfx : f x with _ | y
    · simp only [hfx]
      rw [ih]
    · simp only [hfx]
      rw [ih]
      simp

/-- A fold whose step appends `g x` equals the accumulator followed by
`flatMap g`. -/
theorem foldl_flat_append {α β : Type} (g : α → List β) (step : List β → α → List β)
    (hstep : ∀ acc x, step acc x = acc ++ g x) :
    ∀ (l : List α) (acc : List β), l.foldl step acc = acc ++ l.flatMap g := by
  intro l
  induction l with
  | nil => intro acc; simp
  | cons x xs ih =>
    intro acc
    rw [List.foldl_cons, hstep, ih]
    simp

/-- `getD` with a default drawn from the list stays in the list. -/
theorem getD_mem {α : Type} (l : List α) (i : Nat) (d : α) (hd : d ∈ l) :
    l.getD i d ∈ l := by
  rcases h : l[i]? with _ | x
  · simpa [List.getD, h] using hd
  · have := List.getElem?_mem h
    simpa [List.getD, h] using this

/-- Closed form of the matching loop: the accumulators followed by the
per-title picks and log lines over the indexed remaining titles. -/
theorem matchLoop_eq (search : Nat → Except PyExc (HttpResponse XmlElem)) :
    ∀ (titles : List String) (i : Nat) (matched : List String) (log : List LogLine),
      matchLoop search titles i matched log =
        (matched ++ (List.enumFrom i titles).filterMap (matchPick search),
         log ++ (List.enumFrom i titles).map (matchLine search)) := by
  intro titles
  induction titles with
  | nil => intro i matched log; simp [matchLoop, List.enumFrom]
  | cons t rest ih =>
    intro i matched log
    rcases h : searchAndExtract (search i) t with e | ids
    · simp only [matchLoop, h]
      rw [ih]
      simp [List.enumFrom, matchPick, matchLine, h]
    · rcases ids with _ | ⟨⟨sid, sname⟩, more⟩ <;>
        simp only [matchLoop, h] <;> rw [ih] <;>
        simp [List.enumFrom, matchPick, matchLine, h]

/-! ## Claim theorems -/

/-- C1: for every run, the final matched-track-id sequence equals, in
order, the identifier of the first candidate returned for each title
whose catalog search yielded at least one candidate, iterating titles in
original (truncated) setlist order; titles with zero candidates (or a
failing search) contribute nothing, so the published order is the
surviving subsequence of the title order with no reordering and no
selection other than first-result-wins. -/
theorem c1_matched_ids_first_result_in_order
    (search : Nat → Except PyExc (HttpResponse XmlElem)) (titles : List String) :
    (matchLoop search titles 0 [] []).1 = firstWinsSpec search titles := by
  rw [matchLoop_eq]
  simp [firstWinsSpec, List.enum]

/-- C2: `parse_songs_from_setlist` returns exactly the present, non-empty
`"name"` values of song entries, sets in document order and songs in
document order; entries without a truthy name are skipped, and a document
lacking the `"sets"` key yields the empty sequence rather than an
error. -/
theorem c2_parse_songs_exact (j : SetlistDoc) :
    parse_songs_from_setlist j = parse_songs_spec j ∧
      (j.sets = none → parse_songs_from_setlist j = []) := by
  constructor
  · unfold parse_songs_from_setlist parse_songs_spec
    have hinner : ∀ (acc : List String) (s : SetEntry),
        (s.song.getD []).foldl (fun songs song =>
          match song.name with
          | some title => if title == "" then songs else songs ++ [title]
          | none => songs) acc = acc ++ (s.song.getD []).filterMap songName? := by
      intro acc s
      refine foldl_opt_append songName? _ ?_ _ acc
      intro a e
      rcases he : e.name with _ | t
      · simp [songName?, he]
      · by_cases ht : t == "" <;> simp [songName?, he, ht]
    exact foldl_flat_append _ _ hinner (docSets j) []
  · intro h
    simp [parse_songs_from_setlist, docSets, h]

/-- Witness for C2: a document without a `"sets"` key parses to no
songs. -/
theorem c2_parse_songs_exact_witness :
    parse_songs_from_setlist ⟨none, none⟩ = [] :=
  (c2_parse_songs_exact ⟨none, none⟩).2 rfl

/-- A search response whose XML contains one matching song element;
used to instantiate runs concretely. -/
def oneSongXml : XmlElem :=
  .node "subsonic-response" []
    [.node "searchResult3" [] [.node "song" [("id", "id1"), ("title", "T")] []]]

/-- A search environment that returns `oneSongXml` for every title. -/
def alwaysMatchSearch : Nat → Except PyExc (HttpResponse XmlElem) :=
  fun _ => .ok ⟨200, "", some oneSongXml⟩

/-- C3 counterexample: `--max-songs -1` is accepted by the parser, and
Python slice semantics make `songs[: -1]` drop the last title, so the
resulting length `1` is not `min(-1, 2)`. -/
theorem c3_counterexample :
    truncateSongs ["A", "B"] (-1) = ["A"] ∧
      ((truncateSongs ["A", "B"] (-1)).length : Int) ≠ min (-1 : Int) 2 := by
  decide

/-- C3 amended: for every `--max-songs` value `N ≥ 0` the title sequence
passed to matching has length exactly `min(N, total_titles)`; for
negative `N` Python slice semantics give length `max(0, total + N)`. -/
theorem c3_truncation_length (songs : List String) (n : Int) :
    ((truncateSongs songs n).length : Int) =
      if 0 ≤ n then min n (songs.length : Int)
      else max 0 ((songs.length : Int) + n) := by
  unfold truncateSongs
  by_cases h : 0 ≤ n
  · simp only [h, if_pos, List.length_take]
    push_cast
    omega
  · simp only [h, if_neg, List.length_take, not_false_eq_true]
    omega

/-- C10 counterexample: with `--max-songs -1` and two extracted titles
that both match, the Matched Track List has length `1`, which is not
bounded by the configured cap `-1`. -/
theorem c10_counterexample :
    (matchLoop alwaysMatchSearch (truncateSongs ["A", "B"] (-1)) 0 [] []).1 = ["id1"] ∧
      ¬ (((matchLoop alwaysMatchSearch (truncateSongs ["A", "B"] (-1)) 0 [] []).1.length : Int)
        ≤ (-1 : Int)) := by
  decide

/-- C10 amended: for every search behaviour and every pattern of
per-title successes and failures, the Matched Track List is no longer
than the extracted title sequence, and no longer than the configured cap
whenever that cap is nonnegative. -/
theorem c10_matched_length_bounds (search : Nat → Except PyExc (HttpResponse XmlElem))
    (titles : List String) (cap : Int) :
    (matchLoop search (truncateSongs titles cap) 0 [] []).1.length ≤ titles.length ∧
      (0 ≤ cap →
        (((matchLoop search (truncateSongs titles cap) 0 [] []).1.length : Int) ≤ cap)) := by
  have hlen : (matchLoop search (truncateSongs titles cap) 0 [] []).1.length ≤
      (truncateSongs titles cap).length := by
    rw [matchLoop_eq]
    simpa using (List.length_filterMap_le (matchPick search)
      (List.enumFrom 0 (truncateSongs titles cap))).trans
      (by simp [List.enumFrom_length])
  constructor
  · refine hlen.trans ?_
    unfold truncateSongs
    split <;> simp [List.length_take]
  · intro hc
    have h2 : (truncateSongs titles cap).length ≤ cap.toNat := by
      unfold truncateSongs
      simp [hc, List.length_take]
    omega

/-- Witness for C10 amended: a concrete run with cap `1` and two titles,
where the bound is attained. -/
theorem c10_matched_length_bounds_witness :
    (matchLoop alwaysMatchSearch (truncateSongs ["A", "B"] 1) 0 [] []).1.length ≤ 2 ∧
      ((matchLoop alwaysMatchSearch (truncateSongs ["A", "B"] 1) 0 [] []).1.length : Int) ≤ 1 :=
  ⟨(c10_matched_length_bounds alwaysMatchSearch ["A", "B"] 1).1,
   (c10_matched_length_bounds alwaysMatchSearch ["A", "B"] 1).2 (by decide)⟩

/-- Elements on which `f` yields nothing can be dropped by any filter
that only removes such elements. -/
theorem filterMap_eq_filterMap_filter {α β : Type} (l : List α) (f : α → Option β)
    (q : α → Bool) (h : ∀ x ∈ l, q x = false → f x = none) :
    l.filterMap f = (l.filter q).filterMap f := by
  induction l with
  | nil => simp
  | cons x xs ih =>
    have hxs : ∀ y ∈ xs, q y = false → f y = none := fun y hy => h y (List.mem_cons_of_mem x hy)
    rcases hq : q x with _ | _
    · have hfx : f x = none := h x (List.mem_cons_self x xs) hq
      simp [List.filterMap_cons, List.filter_cons, hq, hfx, ih hxs]
    · rcases hf : f x with _ | y <;>
        simp [List.filterMap_cons, List.filter_cons, hq, hf, ih hxs]

/-- C4: an exception raised while searching or parsing one title's
catalog response is caught inside the loop body: that title contributes
no candidate id (the matched list equals the first-wins picks over the
other titles), the failure is logged at that title's position, and every
title is still processed (one log line per title), so a single failure
never aborts the run. -/
theorem c4_per_title_failure_isolated
    (search : Nat → Except PyExc (HttpResponse XmlElem)) (titles : List String)
    (i : Nat) (t : String) (e : PyExc)
    (hget : titles[i]? = some t)
    (herr : searchAndExtract (search i) t = .error e) :
    (matchLoop search titles 0 [] []).1 =
      ((titles.enum.filter (fun p => p.1 != i)).filterMap (matchPick search)) ∧
    (matchLoop search titles 0 [] []).2[i]? = some (.searchFailed t e) ∧
    (matchLoop search titles 0 [] []).2.length = titles.length := by
  refine ⟨?_, ?_, ?_⟩
  · rw [matchLoop_eq]
    simp only [List.nil_append]
    refine filterMap_eq_filterMap_filter _ _ _ ?_
    intro p hp hq
    have hpi : p.1 = i := by
      rcases p with ⟨a, b⟩
      simpa using hq
    have hmem : titles[p.1 - 0]? = some p.2 ∧ 0 ≤ p.1 := by
      have := (List.mk_mem_enumFrom_iff_le_and_getElem?_sub).1 (by simpa [List.enum] using hp)
      simpa using this
    have hpt : p.2 = t := by
      have h1 := hmem.1
      rw [Nat.sub_zero, hpi, hget] at h1
      exact (Option.some_inj.mp h1).symm
    rcases p with ⟨a, b⟩
    simp only at hpi hpt
    subst hpi hpt
    simp [matchPick, herr]
  · rw [matchLoop_eq]
    simp [List.getElem?_map, List.getElem?_enumFrom, hget, matchLine, herr]
  · rw [matchLoop_eq]
    simp [List.enumFrom_length]

deriving instance DecidableEq for Except

/-- A search environment failing at index 0 (unparsable body) and
matching afterwards; used to instantiate C4 concretely. -/
def failThenMatchSearch : Nat → Except PyExc (HttpResponse XmlElem) :=
  fun i => if i = 0 then .ok ⟨200, "not xml", none⟩ else .ok ⟨200, "", some oneSongXml⟩

/-- Witness for C4: with two titles and a parse failure on the first,
the loop still processes both, logs the failure first, and matches the
second. -/
theorem c4_per_title_failure_isolated_witness :
    (matchLoop failThenMatchSearch ["A", "B"] 0 [] []).1 =
      (((["A", "B"].enum.filter (fun p => p.1 != 0)).filterMap
        (matchPick failThenMatchSearch))) ∧
    (matchLoop failThenMatchSearch ["A", "B"] 0 [] []).2[0]? =
      some (.searchFailed "A" (.other "xml parse error")) ∧
    (matchLoop failThenMatchSearch ["A", "B"] 0 [] []).2.length = 2 :=
  c4_per_title_failure_isolated failThenMatchSearch ["A", "B"] 0 "A"
    (.other "xml parse error") (by decide) (by decide)

/-- C5: `subsonic_params` produces exactly the parameter set
`{u, t, s, v, c}` with `u` the account name, `s` a freshly generated
8-character salt over the lowercase-plus-digits alphabet, `t` the MD5
hex digest of the plaintext password concatenated with that very salt,
`v` the fixed protocol version `"1.16.1"`, and `c` the client string. -/
theorem c5_subsonic_params_shape (clientId username password : String)
    (g : Nat → Nat) (cur : Nat) :
    (subsonic_params clientId username password g cur).1.u = username ∧
    (subsonic_params clientId username password g cur).1.t =
      md5hex (password ++ (subsonic_params clientId username password g cur).1.s) ∧
    (subsonic_params clientId username password g cur).1.s = (random_salt g cur 8).1 ∧
    (subsonic_params clientId username password g cur).1.v = "1.16.1" ∧
    (subsonic_params clientId username password g cur).1.c = clientId ∧
    (subsonic_params clientId username password g cur).1.s.length = 8 ∧
    ∀ c ∈ (subsonic_params clientId username password g cur).1.s.data, c ∈ saltAlphabet := by
  refine ⟨rfl, rfl, rfl, rfl, rfl, ?_, ?_⟩
  · simp [subsonic_params, random_salt, String.length]
  · intro c hc
    simp only [subsonic_params, random_salt] at hc
    simp only [List.mem_map, List.mem_range] at hc
    obtain ⟨j, _, rfl⟩ := hc
    exact getD_mem _ _ _ (by decide)

/-- Witness for C5: a concrete instantiation, whose salt consists of
alphabet characters and has length 8. -/
theorem c5_subsonic_params_shape_witness :
    (subsonic_params "setlist-sync" "u" "pw" (fun _ => 0) 0).1.s.length = 8 ∧
      'a' ∈ saltAlphabet :=
  ⟨(c5_subsonic_params_shape "setlist-sync" "u" "pw" (fun _ => 0) 0).2.2.2.2.2.1,
   (c5_subsonic_params_shape "setlist-sync" "u" "pw" (fun _ => 0) 0).2.2.2.2.2.2 'a'
     (by decide)⟩

/-- C6 counterexample: the code does not guarantee that two calls yield
different salts — with a PRNG state whose next sixteen draws repeat
(modelled by a constant draw stream), two consecutive calls with
identical credentials produce the same salt and the same token. -/
theorem c6_counterexample :
    (subsonic_params "setlist-sync" "user" "pw" (fun _ => 0) 0).1.s =
      (subsonic_params "setlist-sync" "user" "pw" (fun _ => 0)
        (subsonic_params "setlist-sync" "user" "pw" (fun _ => 0) 0).2).1.s ∧
    (subsonic_params "setlist-sync" "user" "pw" (fun _ => 0) 0).1.t =
      (subsonic_params "setlist-sync" "user" "pw" (fun _ => 0)
        (subsonic_params "setlist-sync" "user" "pw" (fun _ => 0) 0).2).1.t := by
  exact ⟨rfl, rfl⟩

/-- Distinct indices below the alphabet size select distinct alphabet
characters. -/
theorem saltAlphabet_getD_inj :
    ∀ a : Fin 36, ∀ b : Fin 36,
      saltAlphabet.getD a.val 'a' = saltAlphabet.getD b.val 'a' → a.val = b.val := by
  decide

/-- C6 amended: each call consumes fresh PRNG draws (the cursor advances
by 8 per call, so consecutive calls read disjoint draw windows and no
salt is cached or reused), and whenever any of the two windows' draws
differ modulo the alphabet size, the two salts differ — and with them
the password-plus-salt strings fed to the digest. -/
theorem c6_fresh_salt_per_call (clientId username password : String)
    (g : Nat → Nat) (cur : Nat) :
    (subsonic_params clientId username password g cur).2 = cur + 8 ∧
    (subsonic_params clientId username password g (cur + 8)).2 = cur + 16 ∧
    ((∃ j, j < 8 ∧ g (cur + j) % 36 ≠ g (cur + 8 + j) % 36) →
      (subsonic_params clientId username password g cur).1.s ≠
        (subsonic_params clientId username password g (cur + 8)).1.s ∧
      password ++ (subsonic_params clientId username password g cur).1.s ≠
        password ++ (subsonic_params clientId username password g (cur + 8)).1.s) := by
  refine ⟨rfl, by simp [subsonic_params, random_salt], ?_⟩
  rintro ⟨j, hj8, hne⟩
  have h36 : saltAlphabet.length = 36 := by decide
  have hsal : (subsonic_params clientId username password g cur).1.s ≠
      (subsonic_params clientId username password g (cur + 8)).1.s := by
    intro hEq
    apply hne
    have hd := congrArg String.data hEq
    simp only [subsonic_params, random_salt] at hd
    have hj := congrArg (fun l => l[j]?) hd
    simp only [List.getElem?_map, List.getElem?_range, hj8] at hj
    rw [h36] at hj
    have ha : g (cur + j) % 36 < 36 := Nat.mod_lt _ (by omega)
    have hb : g (cur + 8 + j) % 36 < 36 := Nat.mod_lt _ (by omega)
    exact saltAlphabet_getD_inj ⟨g (cur + j) % 36, ha⟩ ⟨g (cur + 8 + j) % 36, hb⟩
      (by simpa using hj)
  refine ⟨hsal, ?_⟩
  intro hEq
  apply hsal
  have hd := congrArg String.data hEq
  simp only [String.data_append] at hd
  have := List.append_cancel_left hd
  exact String.ext this

/-- Witness for C6 amended: with the identity draw stream the first two
windows differ, so consecutive salts differ. -/
theorem c6_fresh_salt_per_call_witness :
    (subsonic_params "setlist-sync" "u" "pw" (fun i => i) 0).1.s ≠
      (subsonic_params "setlist-sync" "u" "pw" (fun i => i) (0 + 8)).1.s :=
  ((c6_fresh_salt_per_call "setlist-sync" "u" "pw" (fun i => i) 0).2.2
    ⟨0, by decide, by decide⟩).1

/-- C7 counterexample root: one track element exposing an identifier but
neither a title nor a name attribute. -/
def idOnlyRoot : XmlElem :=
  .node "subsonic-response" [] [.node "song" [("id", "1")] []]

/-- C7 counterexample: the code keeps a candidate for a track element
that exposes an identifier but no title/name attribute — the claim,
which requires both attributes, predicts no candidate here. -/
theorem c7_counterexample :
    extract_song_ids_from_search_xml idOnlyRoot "Encore" = [("1", none)] ∧
      extract_claim_spec idOnlyRoot = [] := by
  decide

/-- C7 amended: candidate extraction returns exactly the track entries
with a truthy identifier attribute — a title/name attribute is not
required — as `(identifier, display name)` pairs, the display name being
the `title` attribute when truthy, else the `name` attribute (possibly
absent); namespaced matches in document order first, then plain matches;
no reordering, no scoring. -/
theorem c7_extraction_amended (root : XmlElem) (title : String) :
    extract_song_ids_from_search_xml root title = extract_amended_spec root := by
  unfold extract_song_ids_from_search_xml extract_amended_spec
  refine foldl_opt_append _ _ ?_ _ []
  intro acc e
  rcases hid : e.get "id" with _ | sid
  · simp [hid]
  · by_cases hs : sid == "" <;> simp [hid, hs]

/-! ## Run-level lemmas: the outcome of `mainRun` in each control-flow
case. -/

/-- Missing Navidrome configuration: diagnostic on stderr, exit 2. -/
theorem mainRun_navFail (args : Args) (env : Env) (w : World)
    (h : navOk env = false) :
    mainRun args env w = ⟨.exit 2, [], [.errNavEnv]⟩ := by
  simp [mainRun, h]

/-- Missing API key: diagnostic on stderr, exit 2. -/
theorem mainRun_apiFail (args : Args) (env : Env) (w : World)
    (hnav : navOk env = true) (h : truthy env.setlistfm_api_key = false) :
    mainRun args env w = ⟨.exit 2, [], [.errApiKey]⟩ := by
  simp [mainRun, hnav, h]

/-- No setlist reference: diagnostic on stderr, exit 2. -/
theorem mainRun_sidFail (args : Args) (env : Env) (w : World)
    (hnav : navOk env = true) (hapi : truthy env.setlistfm_api_key = true)
    (h : truthy (resolveSetlistId args) = false) :
    mainRun args env w = ⟨.exit 2, [], [.errNoSetlistId]⟩ := by
  simp [mainRun, hnav, hapi, h]

/-- A raising fetch (transport error, non-success status, or JSON decode
failure) propagates as an uncaught exception. -/
theorem mainRun_fetchErr (args : Args) (env : Env) (w : World) (e : PyExc)
    (hnav : navOk env = true) (hapi : truthy env.setlistfm_api_key = true)
    (hsid : truthy (resolveSetlistId args) = true)
    (hf : fetch_setlist_by_id env.setlistfm_api_key w.fetchResp = .error e) :
    mainRun args env w =
      ⟨.uncaught e, [.fetching ((resolveSetlistId args).getD "")], []⟩ := by
  simp [mainRun, hnav, hapi, hsid, hf]

/-- An empty extracted title sequence: diagnostic on stderr, exit 1. -/
theorem mainRun_noSongs (args : Args) (env : Env) (w : World) (js : SetlistDoc)
    (hnav : navOk env = true) (hapi : truthy env.setlistfm_api_key = true)
    (hsid : truthy (resolveSetlistId args) = true)
    (hf : fetch_setlist_by_id env.setlistfm_api_key w.fetchResp = .ok js)
    (hs : parse_songs_from_setlist js = []) :
    mainRun args env w =
      ⟨.exit 1, [.fetching ((resolveSetlistId args).getD "")], [.errNoSongs]⟩ := by
  simp [mainRun, hnav, hapi, hsid, hf, hs]

/-- An empty matched list: diagnostic on stderr, exit 1. -/
theorem mainRun_noMatches (args : Args) (env : Env) (w : World) (js : SetlistDoc)
    (hnav : navOk env = true) (hapi : truthy env.setlistfm_api_key = true)
    (hsid : truthy (resolveSetlistId args) = true)
    (hf : fetch_setlist_by_id env.setlistfm_api_key w.fetchResp = .ok js)
    (hs : parse_songs_from_setlist js ≠ [])
    (hm : (matchLoop w.searchResp
      (truncateSongs (parse_songs_from_setlist js) args.max_songs) 0 [] []).1 = []) :
    mainRun args env w =
      ⟨.exit 1,
       [.fetching ((resolveSetlistId args).getD ""),
        .foundCount (truncateSongs (parse_songs_from_setlist js) args.max_songs).length] ++
         (matchLoop w.searchResp
           (truncateSongs (parse_songs_from_setlist js) args.max_songs) 0 [] []).2,
       [.errNoMatches]⟩ := by
  simp [mainRun, hnav, hapi, hsid, hf, hs, hm, List.isEmpty_iff]

/-- A raising playlist creation propagates as an uncaught exception. -/
theorem mainRun_createErr (args : Args) (env : Env) (w : World) (js : SetlistDoc)
    (e : PyExc)
    (hnav : navOk env = true) (hapi : truthy env.setlistfm_api_key = true)
    (hsid : truthy (resolveSetlistId args) = true)
    (hf : fetch_setlist_by_id env.setlistfm_api_key w.fetchResp = .ok js)
    (hs : parse_songs_from_setlist js ≠ [])
    (hm : (matchLoop w.searchResp
      (truncateSongs (parse_songs_from_setlist js) args.max_songs) 0 [] []).1 ≠ [])
    (hc : create_playlist w.createResp = .error e) :
    mainRun args env w =
      ⟨.uncaught e,
       [.fetching ((resolveSetlistId args).getD ""),
        .foundCount (truncateSongs (parse_songs_from_setlist js) args.max_songs).length] ++
         (matchLoop w.searchResp
           (truncateSongs (parse_songs_from_setlist js) args.max_songs) 0 [] []).2 ++
       [.creating args.playlist_name
         (matchLoop w.searchResp
           (truncateSongs (parse_songs_from_setlist js) args.max_songs) 0 [] []).1.length],
       []⟩ := by
  simp [mainRun, hnav, hapi, hsid, hf, hs, hm, hc, List.isEmpty_iff]

/-- A fully successful run: success message printed, exit 0. -/
theorem mainRun_success (args : Args) (env : Env) (w : World) (js : SetlistDoc)
    (cr : HttpResponse Unit)
    (hnav : navOk env = true) (hapi : truthy env.setlistfm_api_key = true)
    (hsid : truthy (resolveSetlistId args) = true)
    (hf : fetch_setlist_by_id env.setlistfm_api_key w.fetchResp = .ok js)
    (hs : parse_songs_from_setlist js ≠ [])
    (hm : (matchLoop w.searchResp
      (truncateSongs (parse_songs_from_setlist js) args.max_songs) 0 [] []).1 ≠ [])
    (hc : create_playlist w.createResp = .ok cr) :
    mainRun args env w =
      ⟨.exit 0,
       [.fetching ((resolveSetlistId args).getD ""),
        .foundCount (truncateSongs (parse_songs_from_setlist js) args.max_songs).length] ++
         (matchLoop w.searchResp
           (truncateSongs (parse_songs_from_setlist js) args.max_songs) 0 [] []).2 ++
       [.creating args.playlist_name
         (matchLoop w.searchResp
           (truncateSongs (parse_songs_from_setlist js) args.max_songs) 0 [] []).1.length,
        .created cr.body],
       []⟩ := by
  simp [mainRun, hnav, hapi, hsid, hf, hs, hm, hc, List.isEmpty_iff]

/-- The loop log never contains a success (`created`) line. -/
theorem matchLoop_log_no_created
    (search : Nat → Except PyExc (HttpResponse XmlElem)) (titles : List String) :
    ((matchLoop search titles 0 [] []).2).any (fun l =>
      match l with
      | .created _ => true
      | _ => false) = false := by
  rw [matchLoop_eq]
  simp only [List.nil_append, List.any_eq_false]
  intro x hx
  simp only [List.mem_map] at hx
  obtain ⟨p, _, rfl⟩ := hx
  unfold matchLine
  rcases searchAndExtract (search p.1) p.2 with e | ids
  · simp
  · rcases ids with _ | ⟨⟨sid, sname⟩, more⟩ <;> simp

/-- C8 amended: an HTTP status in the 4xx/5xx range — exactly the
statuses `raise_for_status` raises for — on the initial setlist fetch,
or on the final playlist-creation call, raises an HTTP error carrying
the status and body which no handler catches: the run ends as an
uncaught exception with a non-zero process exit status, and the success
message is never printed (no partial recovery, no rollback).  Non-2xx
statuses outside that range are not raised (see the counterexample
below). -/
theorem c8_http_failures_fatal (args : Args) (env : Env) (w : World)
    (hnav : navOk env = true) (hapi : truthy env.setlistfm_api_key = true)
    (hsid : truthy (resolveSetlistId args) = true) :
    (∀ r : HttpResponse SetlistDoc, w.fetchResp = .ok r →
      400 ≤ r.status → r.status < 600 →
      (mainRun args env w).outcome = .uncaught (.httpError r.status r.body) ∧
      processExitCode (mainRun args env w).outcome ≠ 0 ∧
      successPrinted (mainRun args env w) = false) ∧
    (∀ (js : SetlistDoc) (cr : HttpResponse Unit),
      fetch_setlist_by_id env.setlistfm_api_key w.fetchResp = .ok js →
      parse_songs_from_setlist js ≠ [] →
      (matchLoop w.searchResp
        (truncateSongs (parse_songs_from_setlist js) args.max_songs) 0 [] []).1 ≠ [] →
      w.createResp = .ok cr → 400 ≤ cr.status → cr.status < 600 →
      (mainRun args env w).outcome = .uncaught (.httpError cr.status cr.body) ∧
      processExitCode (mainRun args env w).outcome ≠ 0 ∧
      successPrinted (mainRun args env w) = false) := by
  constructor
  · intro r hw h4 h6
    have hf : fetch_setlist_by_id env.setlistfm_api_key w.fetchResp =
        .error (.httpError r.status r.body) := by
      simp [fetch_setlist_by_id, hapi, hw, raise_for_status, h4, h6]
    rw [mainRun_fetchErr args env w _ hnav hapi hsid hf]
    refine ⟨rfl, by simp [processExitCode], ?_⟩
    simp [successPrinted]
  · intro js cr hf hs hm hw h4 h6
    have hc : create_playlist w.createResp = .error (.httpError cr.status cr.body) := by
      simp [create_playlist, hw, raise_for_status, h4, h6]
    rw [mainRun_createErr args env w js _ hnav hapi hsid hf hs hm hc]
    refine ⟨rfl, by simp [processExitCode], ?_⟩
    simp only [successPrinted, List.any_append, Bool.or_eq_false_iff]
    exact ⟨⟨by rfl, matchLoop_log_no_created _ _⟩, by rfl⟩

/-- The setlist document used to instantiate run-level witnesses: one
set containing one song named `"A"`. -/
def oneSongDoc : SetlistDoc := ⟨some ⟨some [⟨some [⟨some "A"⟩]⟩]⟩, some "Artist"⟩

/-- The environment used to instantiate run-level witnesses. -/
def envW : Env := ⟨some "key", some "http://nav", some "user", some "pw", none⟩

/-- The arguments used to instantiate run-level witnesses. -/
def argsW : Args := ⟨some "abc123", none, "Playlist", none, 200⟩

/-- A world whose setlist fetch returns HTTP 500. -/
def fetch500World : World :=
  ⟨.ok ⟨500, "server error", none⟩, alwaysMatchSearch, .ok ⟨200, "ok", some ()⟩⟩

/-- A world whose playlist creation returns HTTP 500. -/
def create500World : World :=
  ⟨.ok ⟨200, "", some oneSongDoc⟩, alwaysMatchSearch, .ok ⟨500, "boom", some ()⟩⟩

/-- A world whose playlist creation returns a terminal HTTP 304. -/
def create304World : World :=
  ⟨.ok ⟨200, "", some oneSongDoc⟩, alwaysMatchSearch, .ok ⟨304, "not modified", some ()⟩⟩

/-- C8 counterexample: a non-success status outside the 4xx/5xx range is
not raised.  A terminal 304 on the playlist-creation call passes
`raise_for_status`, the success message is printed and the process exits
0; and a 304 on the setlist fetch ends as a plain JSON-decode error, not
an error carrying the status and body. -/
theorem c8_counterexample :
    processExitCode (mainRun argsW envW create304World).outcome = 0 ∧
    successPrinted (mainRun argsW envW create304World) = true ∧
    fetch_setlist_by_id envW.setlistfm_api_key
      (Except.ok (⟨304, "not modified", none⟩ : HttpResponse SetlistDoc)) =
        .error (.other "json decode error") := by
  decide

/-- Witness for C8: concrete runs in which the fetch (respectively the
playlist creation) returns HTTP 500, ending as an uncaught HTTP error
with no success message. -/
theorem c8_http_failures_fatal_witness :
    ((mainRun argsW envW fetch500World).outcome =
        .uncaught (.httpError 500 "server error") ∧
      processExitCode (mainRun argsW envW fetch500World).outcome ≠ 0 ∧
      successPrinted (mainRun argsW envW fetch500World) = false) ∧
    ((mainRun argsW envW create500World).outcome = .uncaught (.httpError 500 "boom") ∧
      processExitCode (mainRun argsW envW create500World).outcome ≠ 0 ∧
      successPrinted (mainRun argsW envW create500World) = false) :=
  ⟨(c8_http_failures_fatal argsW envW fetch500World (by decide) (by decide)
      (by decide)).1 ⟨500, "server error", none⟩ rfl (by decide) (by decide),
   (c8_http_failures_fatal argsW envW create500World (by decide) (by decide)
      (by decide)).2 oneSongDoc ⟨500, "boom", some ()⟩ rfl (by decide)
      (by decide) rfl (by decide) (by decide)⟩

/-- C9 counterexample: an HTTP 500 on the setlist fetch also ends the
process with exit status 1 (CPython's status for an uncaught exception),
in a run in which no setlist was ever parsed — so exit status 1 is not
reserved for the zero-titles / zero-matches conditions. -/
theorem c9_counterexample :
    processExitCode (mainRun argsW envW fetch500World).outcome = 1 ∧
    (mainRun argsW envW fetch500World).outcome =
      .uncaught (.httpError 500 "server error") ∧
    fetch_setlist_by_id envW.setlistfm_api_key fetch500World.fetchResp =
      .error (.httpError 500 "server error") := by
  decide

/-- C9 amended: exit code 2 is produced exactly when required
configuration or the setlist reference is missing; process exit status 1
arises exactly when (configuration being present) the fetch raises, the
setlist yields zero titles, zero titles match, or the playlist creation
raises; exit code 0 is produced exactly by a fully successful run. -/
theorem c9_exit_code_characterization (args : Args) (env : Env) (w : World) :
    ((mainRun args env w).outcome = .exit 2 ↔
      ¬(navOk env = true ∧ truthy env.setlistfm_api_key = true ∧
        truthy (resolveSetlistId args) = true)) ∧
    (processExitCode (mainRun args env w).outcome = 1 ↔
      (navOk env = true ∧ truthy env.setlistfm_api_key = true ∧
        truthy (resolveSetlistId args) = true) ∧
      ((∃ e, fetch_setlist_by_id env.setlistfm_api_key w.fetchResp = .error e) ∨
       (∃ js, fetch_setlist_by_id env.setlistfm_api_key w.fetchResp = .ok js ∧
         (parse_songs_from_setlist js = [] ∨
          (matchLoop w.searchResp
            (truncateSongs (parse_songs_from_setlist js) args.max_songs) 0 [] []).1 = [] ∨
          (∃ e, create_playlist w.createResp = .error e))))) ∧
    ((mainRun args env w).outcome = .exit 0 ↔
      (navOk env = true ∧ truthy env.setlistfm_api_key = true ∧
        truthy (resolveSetlistId args) = true) ∧
      (∃ js, fetch_setlist_by_id env.setlistfm_api_key w.fetchResp = .ok js ∧
        parse_songs_from_setlist js ≠ [] ∧
        (matchLoop w.searchResp
          (truncateSongs (parse_songs_from_setlist js) args.max_songs) 0 [] []).1 ≠ [] ∧
        ∃ cr, create_playlist w.createResp = .ok cr)) := by
  rcases hnav : navOk env with _ | _
  · rw [mainRun_navFail args env w hnav]
    simp [processExitCode, hnav]
  · rcases hapi : truthy env.setlistfm_api_key with _ | _
    · rw [mainRun_apiFail args env w hnav hapi]
      simp [processExitCode, hapi]
    · rcases hsid : truthy (resolveSetlistId args) with _ | _
      · rw [mainRun_sidFail args env w hnav hapi hsid]
        simp [processExitCode, hsid]
      · rcases hf : fetch_setlist_by_id env.setlistfm_api_key w.fetchResp with e | js
        · rw [mainRun_fetchErr args env w e hnav hapi hsid hf]
          simp [processExitCode, hf]
        · by_cases hs : parse_songs_from_setlist js = []
          · rw [mainRun_noSongs args env w js hnav hapi hsid hf hs]
            simp [processExitCode, hf, hs]
          · by_cases hm : (matchLoop w.searchResp
                (truncateSongs (parse_songs_from_setlist js) args.max_songs)
                  0 [] []).1 = []
            · rw [mainRun_noMatches args env w js hnav hapi hsid hf hs hm]
              simp [processExitCode, hf, hs, hm]
            · rcases hc : create_playlist w.createResp with e | cr
              · rw [mainRun_createErr args env w js e hnav hapi hsid hf hs hm hc]
                simp [processExitCode, hf, hs, hm, hc]
              · rw [mainRun_success args env w js cr hnav hapi hsid hf hs hm hc]
                simp [processExitCode, hf, hs, hm, hc]
